import Mathlib

/-!
Shallow embedding of the CRM GraphQL mutation layer (`crm/schema.py`).

The data store is modelled as an in-memory `DB` value threaded through the
mutations; Django ORM calls become operations on that state:
`Customer.objects.filter(email=e).exists()` is `emailExists`,
`Model.objects.get(pk=i)` is a `find?` by id, `obj.save()` appends the
record and bumps the id counter.  `graphene.ID` values are modelled as
`Nat`.  Prices are modelled as `ℚ` (the spec's "positive decimal"; the
model definitions `models.py` are not part of the sources).  Python's
truthiness test `if phone:` on an optional string is `phoneTruthy`.
-/

namespace Crm

/-- A stored customer row. `phone` is optional (nullable), as in the source. -/
structure Customer where
  id : Nat
  name : String
  email : String
  phone : Option String
deriving Repr, DecidableEq

/-- A stored product row.  `price` is a `ℚ` (the spec describes it as a
positive decimal; `models.py` is not among the sources), `stock` an integer
(the GraphQL argument is a plain `Int` and may be negative before validation). -/
structure Product where
  id : Nat
  name : String
  price : ℚ
  stock : Int
deriving Repr, DecidableEq

/-- A stored order row: the owning customer's id, the order date (an abstract
timestamp), the frozen `totalAmount` snapshot, and the related product ids. -/
structure Order where
  id : Nat
  customerId : Nat
  orderDate : Nat
  totalAmount : ℚ
  productIds : List Nat
deriving Repr, DecidableEq

/-- The whole data-store state: the three tables plus fresh-id counters. -/
structure DB where
  customers : List Customer
  products : List Product
  orders : List Order
  nextCustomerId : Nat
  nextProductId : Nat
  nextOrderId : Nat
deriving Repr, DecidableEq

/-- `Customer.objects.filter(email=email).exists()`. -/
def emailExists (db : DB) (email : String) : Bool :=
  db.customers.any (fun c => c.email == email)

/-- `Customer.objects.get(pk=cid)`, `None` standing for `ObjectDoesNotExist`. -/
def getCustomer (db : DB) (cid : Nat) : Option Customer :=
  db.customers.find? (fun c => c.id == cid)

/-- `Product.objects.get(pk=pid)`, `None` standing for `ObjectDoesNotExist`. -/
def getProduct (db : DB) (pid : Nat) : Option Product :=
  db.products.find? (fun p => p.id == pid)

/-- Python truthiness of the optional `phone` argument: `None` and the empty
string are falsy, every other string is truthy (`if phone:` in the source). -/
def phoneTruthy : Option String → Bool
  | none => false
  | some s => s != ""

/-- The first alternative of the source's phone regex on a character list:
`\+\d{10,15}` anchored on both sides, a plus sign followed by 10 to 15 digits. -/
def plusChars : List Char → Bool
  | '+' :: ds =>
      ds.all Char.isDigit && decide (10 ≤ ds.length) && decide (ds.length ≤ 15)
  | _ => false

/-- The second alternative of the source's phone regex on a character list:
`\d{3}-\d{3}-\d{4}` anchored on both sides, exactly 12 characters with hyphens
at positions 3 and 7 and digits everywhere else. -/
def dashChars : List Char → Bool
  | [a, b, c, h1, d, e, f, h2, g, i, j, k] =>
      h1 == '-' && h2 == '-' && [a, b, c, d, e, f, g, i, j, k].all Char.isDigit
  | _ => false

/-- The first alternative of the source's phone regex on a string. -/
def isPlusFormat (s : String) : Bool :=
  plusChars s.data

/-- The second alternative of the source's phone regex on a string. -/
def isDashFormat (s : String) : Bool :=
  dashChars s.data

/-- The source's `phone_regex.match` with pattern
`^(\+\d{10,15}|\d{3}-\d{3}-\d{4})$` (digits read as ASCII digits). -/
def phoneRegexMatch (s : String) : Bool :=
  isPlusFormat s || isDashFormat s

/-- The `CreateCustomer` mutation's result envelope. -/
structure CreateCustomerResult where
  customer : Option Customer
  success : Bool
  message : String
deriving Repr, DecidableEq

/-- `CreateCustomer.mutate`: reject a duplicate email, then (for a truthy
phone) a phone failing the regex, otherwise persist and return the customer. -/
def createCustomer (db : DB) (name email : String) (phone : Option String) :
    CreateCustomerResult × DB :=
  if emailExists db email then
    ({ customer := none, success := false, message := "Email already exists." }, db)
  else if phoneTruthy phone && !phoneRegexMatch (phone.getD "") then
    ({ customer := none, success := false, message := "Invalid phone format." }, db)
  else
    let c : Customer :=
      { id := db.nextCustomerId, name := name, email := email, phone := phone }
    ({ customer := some c, success := true, message := "Customer created successfully." },
     { db with customers := db.customers ++ [c], nextCustomerId := db.nextCustomerId + 1 })

/-- One element of the `customers` argument of `BulkCreateCustomers`
(the inline `CustomerInput` input object type). -/
structure CustomerInput where
  name : String
  email : String
  phone : Option String
deriving Repr, DecidableEq

/-- The common shape of the bulk mutation's error strings: the row's 1-based
position (`idx` is the 0-based loop index) followed by a message. -/
def rowError (idx : Nat) (msg : String) : String :=
  "Row " ++ toString (idx + 1) ++ ": " ++ msg

/-- The source's error string `f"Row {idx+1}: Email '{email}' already exists."`. -/
def rowEmailError (idx : Nat) (email : String) : String :=
  rowError idx ("Email '" ++ email ++ "' already exists.")

/-- The source's error string `f"Row {idx+1}: Invalid phone format."`. -/
def rowPhoneError (idx : Nat) : String :=
  rowError idx "Invalid phone format."

/-- The source's error string `f"Row {idx+1}: {str(e)}"` for a caught
persistence exception `e`. -/
def rowExcError (idx : Nat) (msg : String) : String :=
  rowError idx msg

/-- The loop body of `BulkCreateCustomers.mutate`, row by row.  `saveExc idx`
is the environment's choice of persistence exception raised by
`customer.save()` on row `idx` (`none` when the save succeeds): the source's
`except Exception as e` catches it and records `f"Row {idx+1}: {str(e)}"`,
then the loop continues.  Duplicate-email and phone checks run against the
evolving state, so a row saved earlier in the same batch blocks a later
duplicate.  Returns the created customers, the error strings, and the state. -/
def bulkGo (saveExc : Nat → Option String) :
    Nat → DB → List CustomerInput → List Customer × List String × DB
  | _, db, [] => ([], [], db)
  | idx, db, data :: rest =>
    if emailExists db data.email then
      let r := bulkGo saveExc (idx + 1) db rest
      (r.1, rowEmailError idx data.email :: r.2.1, r.2.2)
    else if phoneTruthy data.phone && !phoneRegexMatch (data.phone.getD "") then
      let r := bulkGo saveExc (idx + 1) db rest
      (r.1, rowPhoneError idx :: r.2.1, r.2.2)
    else
      match saveExc idx with
      | some msg =>
        let r := bulkGo saveExc (idx + 1) db rest
        (r.1, rowExcError idx msg :: r.2.1, r.2.2)
      | none =>
        let c : Customer :=
          { id := db.nextCustomerId, name := data.name, email := data.email,
            phone := data.phone }
        let db1 : DB :=
          { db with customers := db.customers ++ [c],
                    nextCustomerId := db.nextCustomerId + 1 }
        let r := bulkGo saveExc (idx + 1) db1 rest
        (c :: r.1, r.2.1, r.2.2)

/-- The `BulkCreateCustomers` mutation's result envelope. -/
structure BulkResult where
  createdCustomers : List Customer
  errors : List String
deriving Repr, DecidableEq

/-- `BulkCreateCustomers.mutate` when the transaction commits (no
storage-layer failure): the whole loop runs inside `transaction.atomic()`
and the final state is the loop's state. -/
def bulkCreateCustomers (db : DB) (customers : List CustomerInput)
    (saveExc : Nat → Option String) : BulkResult × DB :=
  let r := bulkGo saveExc 0 db customers
  ({ createdCustomers := r.1, errors := r.2.1 }, r.2.2)

/-- Modelled from the spec: the data store's atomic transaction primitive is
an external collaborator (§1 treats the store as a black box offering "atomic
multi-row transactions"; §5 requires all-or-nothing commit of the batch).
`storageOk = true` is a normal run: the loop's writes commit together and the
result envelope is returned.  `storageOk = false` is an unrecoverable
storage-layer failure outside validation: the atomic scope wrapping the whole
batch rolls every buffered write back, leaving the initial state, and no
result envelope reaches the caller. -/
def bulkCreateCustomersAtomic (db : DB) (customers : List CustomerInput)
    (saveExc : Nat → Option String) (storageOk : Bool) : Option BulkResult × DB :=
  if storageOk then
    let r := bulkCreateCustomers db customers saveExc
    (some r.1, r.2)
  else
    (none, db)

/-- The `CreateProduct` mutation's result envelope. -/
structure CreateProductResult where
  product : Option Product
  success : Bool
  message : String
deriving Repr, DecidableEq

/-- `CreateProduct.mutate`: reject `price <= 0`, then `stock < 0`,
otherwise persist and return the product. -/
def createProduct (db : DB) (name : String) (price : ℚ) (stock : Int) :
    CreateProductResult × DB :=
  if price ≤ 0 then
    ({ product := none, success := false, message := "Price must be positive." }, db)
  else if stock < 0 then
    ({ product := none, success := false, message := "Stock cannot be negative." }, db)
  else
    let p : Product := { id := db.nextProductId, name := name, price := price, stock := stock }
    ({ product := some p, success := true, message := "Product created successfully." },
     { db with products := db.products ++ [p], nextProductId := db.nextProductId + 1 })

/-- The `CreateOrder` mutation's result envelope. -/
structure CreateOrderResult where
  order : Option Order
  success : Bool
  message : String
deriving Repr, DecidableEq

/-- The product-resolution loop of `CreateOrder.mutate`: resolve each id in
input order, short-circuiting with the first unresolvable id (the source's
`return` inside the `for` loop). -/
def resolveProducts (db : DB) : List Nat → Except Nat (List Product)
  | [] => Except.ok []
  | pid :: rest =>
    match getProduct db pid with
    | none => Except.error pid
    | some p =>
      match resolveProducts db rest with
      | Except.error e => Except.error e
      | Except.ok ps => Except.ok (p :: ps)

/-- The running `total_amount += product.price` of the source, as the sum of
the resolved products' prices. -/
def totalOf (ps : List Product) : ℚ :=
  (ps.map Product.price).sum

/-- `CreateOrder.mutate`: resolve the customer (failure: "Invalid customer
ID."), reject an empty `product_ids` list, resolve the products in input
order (failure: "Invalid product ID: " and the id), then persist the order
with the summed `total_amount` and the `order_date` defaulted to `now`
(`datetime.now()`), and attach the product relation. -/
def createOrder (db : DB) (customerId : Nat) (productIds : List Nat)
    (orderDate : Option Nat) (now : Nat) : CreateOrderResult × DB :=
  match getCustomer db customerId with
  | none =>
    ({ order := none, success := false, message := "Invalid customer ID." }, db)
  | some cust =>
    if productIds.isEmpty then
      ({ order := none, success := false,
         message := "At least one product must be selected." }, db)
    else
      match resolveProducts db productIds with
      | Except.error pid =>
        ({ order := none, success := false,
           message := "Invalid product ID: " ++ toString pid }, db)
      | Except.ok prods =>
        let o : Order :=
          { id := db.nextOrderId, customerId := cust.id,
            orderDate := orderDate.getD now, totalAmount := totalOf prods,
            productIds := prods.map Product.id }
        ({ order := some o, success := true, message := "Order created successfully." },
         { db with orders := db.orders ++ [o], nextOrderId := db.nextOrderId + 1 })

/-- Spec-side reading of the first phone pattern, transcribed from the spec's
words ("`+` followed by 10–15 digits", regex `^\+\d{10,15}$`), independently of
the source's combined regex: the string is a plus sign followed by a list of
10 to 15 digits. -/
def specPlusFormat (s : String) : Prop :=
  ∃ ds : List Char, s.data = '+' :: ds ∧ 10 ≤ ds.length ∧ ds.length ≤ 15 ∧
    ∀ c ∈ ds, c.isDigit = true

/-- Spec-side reading of the second phone pattern, transcribed from the spec's
words ("`NNN-NNN-NNNN`, 3-3-4 digit groups separated by hyphens", regex
`^\d{3}-\d{3}-\d{4}$`): three digit groups of lengths 3, 3 and 4 joined by
single hyphens. -/
def specDashFormat (s : String) : Prop :=
  ∃ g1 g2 g3 : List Char,
    s.data = g1 ++ '-' :: (g2 ++ '-' :: g3) ∧
    g1.length = 3 ∧ g2.length = 3 ∧ g3.length = 4 ∧
    ∀ c ∈ g1 ++ g2 ++ g3, c.isDigit = true

/-- The per-row outcome of the bulk loop: each input row yields either the
customer it created or the error string it contributed.  This mirrors the
branch structure of `bulkGo` one row at a time and exists to state that the
`created` and `errors` lists partition the input rows in order. -/
def bulkOutcomes (saveExc : Nat → Option String) :
    Nat → DB → List CustomerInput → List (Customer ⊕ String)
  | _, _, [] => []
  | idx, db, data :: rest =>
    if emailExists db data.email then
      Sum.inr (rowEmailError idx data.email) :: bulkOutcomes saveExc (idx + 1) db rest
    else if phoneTruthy data.phone && !phoneRegexMatch (data.phone.getD "") then
      Sum.inr (rowPhoneError idx) :: bulkOutcomes saveExc (idx + 1) db rest
    else
      match saveExc idx with
      | some msg => Sum.inr (rowExcError idx msg) :: bulkOutcomes saveExc (idx + 1) db rest
      | none =>
        let c : Customer :=
          { id := db.nextCustomerId, name := data.name, email := data.email,
            phone := data.phone }
        let db1 : DB :=
          { db with customers := db.customers ++ [c],
                    nextCustomerId := db.nextCustomerId + 1 }
        Sum.inl c :: bulkOutcomes saveExc (idx + 1) db1 rest

/-- An empty data store, for concrete evaluations. -/
def dbEmpty : DB :=
  ⟨[], [], [], 0, 0, 0⟩

/-- A small seeded data store: one customer (id 0, email `b@x.com`) and two
products (id 0 at price 5, id 1 at price 3), for concrete evaluations. -/
def dbSeed : DB :=
  ⟨[⟨0, "Bob", "b@x.com", none⟩],
   [⟨0, "Widget", 5, 3⟩, ⟨1, "Gadget", 3, 7⟩],
   [], 1, 2, 0⟩

/-! Helper lemmas about the bulk loop and product resolution. -/

theorem bulkGo_customers (saveExc : Nat → Option String) :
    ∀ (rows : List CustomerInput) (idx : Nat) (db : DB),
      (bulkGo saveExc idx db rows).2.2.customers =
        db.customers ++ (bulkGo saveExc idx db rows).1 := by
  intro rows
  induction rows with
  | nil => intro idx db; simp [bulkGo]
  | cons data rest ih =>
    intro idx db
    by_cases h1 : emailExists db data.email
    · simpa [bulkGo, h1] using ih (idx + 1) db
    · by_cases h2 : (phoneTruthy data.phone && !phoneRegexMatch (data.phone.getD "")) = true
      · simpa [bulkGo, h1, h2] using ih (idx + 1) db
      · cases hs : saveExc idx with
        | some msg => simpa [bulkGo, h1, h2, hs] using ih (idx + 1) db
        | none =>
          simp only [bulkGo, if_neg h1, if_neg h2, hs]
          rw [ih]
          simp

theorem bulkGo_length (saveExc : Nat → Option String) :
    ∀ (rows : List CustomerInput) (idx : Nat) (db : DB),
      (bulkGo saveExc idx db rows).1.length + (bulkGo saveExc idx db rows).2.1.length =
        rows.length := by
  intro rows
  induction rows with
  | nil => intro idx db; simp [bulkGo]
  | cons data rest ih =>
    intro idx db
    by_cases h1 : emailExists db data.email
    · simp only [bulkGo, if_pos h1, List.length_cons]
      have := ih (idx + 1) db
      omega
    · by_cases h2 : (phoneTruthy data.phone && !phoneRegexMatch (data.phone.getD "")) = true
      · simp only [bulkGo, if_neg h1, if_pos h2, List.length_cons]
        have := ih (idx + 1) db
        omega
      · cases hs : saveExc idx with
        | some msg =>
          simp only [bulkGo, if_neg h1, if_neg h2, hs, List.length_cons]
          have := ih (idx + 1) db
          omega
        | none =>
          simp only [bulkGo, if_neg h1, if_neg h2, hs, List.length_cons]
          have := ih (idx + 1)
            ⟨db.customers ++ [⟨db.nextCustomerId, data.name, data.email, data.phone⟩],
             db.products, db.orders, db.nextCustomerId + 1, db.nextProductId,
             db.nextOrderId⟩
          omega

theorem bulkGo_errors_indexed (saveExc : Nat → Option String) :
    ∀ (rows : List CustomerInput) (idx : Nat) (db : DB),
      ∀ e ∈ (bulkGo saveExc idx db rows).2.1,
        ∃ n msg, idx ≤ n ∧ n < idx + rows.length ∧ e = rowError n msg := by
  intro rows
  induction rows with
  | nil => intro idx db e he; simp [bulkGo] at he
  | cons data rest ih =>
    intro idx db e he
    simp only [List.length_cons]
    by_cases h1 : emailExists db data.email
    · simp only [bulkGo, if_pos h1, List.mem_cons] at he
      rcases he with rfl | he
      · exact ⟨idx, _, le_refl idx, by omega, rfl⟩
      · obtain ⟨n, msg, hn1, hn2, hne⟩ := ih (idx + 1) db e he
        exact ⟨n, msg, by omega, by omega, hne⟩
    · by_cases h2 : (phoneTruthy data.phone && !phoneRegexMatch (data.phone.getD "")) = true
      · simp only [bulkGo, if_neg h1, if_pos h2, List.mem_cons] at he
        rcases he with rfl | he
        · exact ⟨idx, _, le_refl idx, by omega, rfl⟩
        · obtain ⟨n, msg, hn1, hn2, hne⟩ := ih (idx + 1) db e he
          exact ⟨n, msg, by omega, by omega, hne⟩
      · cases hs : saveExc idx with
        | some msg =>
          simp only [bulkGo, if_neg h1, if_neg h2, hs, List.mem_cons] at he
          rcases he with rfl | he
          · exact ⟨idx, msg, le_refl idx, by omega, rfl⟩
          · obtain ⟨n, m, hn1, hn2, hne⟩ := ih (idx + 1) db e he
            exact ⟨n, m, by omega, by omega, hne⟩
        | none =>
          simp only [bulkGo, if_neg h1, if_neg h2, hs] at he
          obtain ⟨n, m, hn1, hn2, hne⟩ := ih (idx + 1) _ e he
          exact ⟨n, m, by omega, by omega, hne⟩

theorem bulkGo_eq_outcomes (saveExc : Nat → Option String) :
    ∀ (rows : List CustomerInput) (idx : Nat) (db : DB),
      (bulkGo saveExc idx db rows).1 =
        (bulkOutcomes saveExc idx db rows).filterMap Sum.getLeft? ∧
      (bulkGo saveExc idx db rows).2.1 =
        (bulkOutcomes saveExc idx db rows).filterMap Sum.getRight? ∧
      (bulkOutcomes saveExc idx db rows).length = rows.length := by
  intro rows
  induction rows with
  | nil => intro idx db; simp [bulkGo, bulkOutcomes]
  | cons data rest ih =>
    intro idx db
    by_cases h1 : emailExists db data.email
    · obtain ⟨e1, e2, e3⟩ := ih (idx + 1) db
      simp only [bulkGo, bulkOutcomes, if_pos h1, List.filterMap_cons, Sum.getLeft?,
        Sum.getRight?, List.length_cons]
      exact ⟨e1, by rw [e2], by rw [e3]⟩
    · by_cases h2 : (phoneTruthy data.phone && !phoneRegexMatch (data.phone.getD "")) = true
      · obtain ⟨e1, e2, e3⟩ := ih (idx + 1) db
        simp only [bulkGo, bulkOutcomes, if_neg h1, if_pos h2, List.filterMap_cons,
          Sum.getLeft?, Sum.getRight?, List.length_cons]
        exact ⟨e1, by rw [e2], by rw [e3]⟩
      · cases hs : saveExc idx with
        | some msg =>
          obtain ⟨e1, e2, e3⟩ := ih (idx + 1) db
          simp only [bulkGo, bulkOutcomes, if_neg h1, if_neg h2, hs, List.filterMap_cons,
            Sum.getLeft?, Sum.getRight?, List.length_cons]
          exact ⟨e1, by rw [e2], by rw [e3]⟩
        | none =>
          obtain ⟨e1, e2, e3⟩ := ih (idx + 1)
            ⟨db.customers ++ [⟨db.nextCustomerId, data.name, data.email, data.phone⟩],
             db.products, db.orders, db.nextCustomerId + 1, db.nextProductId,
             db.nextOrderId⟩
          simp only [bulkGo, bulkOutcomes, if_neg h1, if_neg h2, hs, List.filterMap_cons,
            Sum.getLeft?, Sum.getRight?, List.length_cons]
          exact ⟨by rw [e1], by rw [e2], by rw [e3]⟩

theorem resolveProducts_first_error (db : DB) (bad : Nat) (l2 : List Nat)
    (hbad : getProduct db bad = none) :
    ∀ (l1 : List Nat), (∀ p ∈ l1, (getProduct db p).isSome) →
      resolveProducts db (l1 ++ bad :: l2) = Except.error bad := by
  intro l1
  induction l1 with
  | nil => intro _; simp [resolveProducts, hbad]
  | cons p t ih =>
    intro h
    obtain ⟨q, hq⟩ := Option.isSome_iff_exists.mp (h p (List.mem_cons_self p t))
    have := ih (fun x hx => h x (List.mem_cons_of_mem p hx))
    simp [resolveProducts, hq, this]


theorem list_length_four {α : Type} :
    ∀ {l : List α}, l.length = 4 → ∃ a b c d, l = [a, b, c, d] := by
  intro l h
  rcases l with _ | ⟨a, l⟩; · simp at h
  rcases l with _ | ⟨b, l⟩; · simp at h
  rcases l with _ | ⟨c, l⟩; · simp at h
  rcases l with _ | ⟨d, l⟩; · simp at h
  rcases l with _ | ⟨x, l⟩
  · exact ⟨a, b, c, d, rfl⟩
  · simp at h

theorem isPlusFormat_iff (s : String) : isPlusFormat s = true ↔ specPlusFormat s := by
  unfold isPlusFormat specPlusFormat
  constructor
  · intro h
    unfold plusChars at h
    split at h
    · rename_i ds heq
      rw [Bool.and_assoc, Bool.and_eq_true, Bool.and_eq_true] at h
      obtain ⟨hall, h10, h15⟩ := h
      exact ⟨ds, heq, by simpa using h10, by simpa using h15,
        fun c hc => List.all_eq_true.mp hall c hc⟩
    · exact absurd h (by simp)
  · rintro ⟨ds, hdata, h10, h15, hdig⟩
    rw [hdata]
    simp only [plusChars, Bool.and_eq_true, decide_eq_true_eq, List.all_eq_true]
    exact ⟨⟨fun c hc => hdig c hc, h10⟩, h15⟩

theorem isDashFormat_iff (s : String) : isDashFormat s = true ↔ specDashFormat s := by
  unfold isDashFormat specDashFormat
  constructor
  · intro h
    unfold dashChars at h
    split at h
    · rename_i a b c h1 d e f h2 g i j k heq
      rw [Bool.and_eq_true, Bool.and_eq_true] at h
      obtain ⟨⟨hh1, hh2⟩, hall⟩ := h
      have hh1' : h1 = '-' := by simpa using hh1
      have hh2' : h2 = '-' := by simpa using hh2
      refine ⟨[a, b, c], [d, e, f], [g, i, j, k], ?_, rfl, rfl, rfl, ?_⟩
      · rw [heq, hh1', hh2']; rfl
      · intro x hx
        have hmem := List.all_eq_true.mp hall
        apply hmem
        simp only [List.mem_append, List.mem_cons, List.not_mem_nil, or_false] at hx ⊢
        tauto
    · exact absurd h (by simp)
  · rintro ⟨g1, g2, g3, hdata, hl1, hl2, hl3, hdig⟩
    obtain ⟨a, b, c, rfl⟩ := List.length_eq_three.mp hl1
    obtain ⟨d, e, f, rfl⟩ := List.length_eq_three.mp hl2
    obtain ⟨g, i, j, k, rfl⟩ := list_length_four hl3
    rw [hdata]
    show dashChars [a, b, c, '-', d, e, f, '-', g, i, j, k] = true
    simp only [dashChars, Bool.and_eq_true, List.all_eq_true, beq_self_eq_true,
      true_and]
    intro x hx
    apply hdig
    simp only [List.mem_append, List.mem_cons, List.not_mem_nil, or_false] at hx ⊢
    tauto


/-! The claims. -/

/-- C5: a `CreateCustomer` call whose email already belongs to a stored
customer fails with the message "Email already exists." and leaves the
stored state unchanged. -/
theorem duplicate_email_rejected (db : DB) (n e : String) (p : Option String)
    (h : emailExists db e = true) :
    createCustomer db n e p =
      ({ customer := none, success := false, message := "Email already exists." }, db) := by
  simp [createCustomer, h]

theorem duplicate_email_rejected_witness :
    emailExists dbSeed "b@x.com" = true ∧
    createCustomer dbSeed "Bob2" "b@x.com" none =
      ({ customer := none, success := false, message := "Email already exists." }, dbSeed) :=
  ⟨by decide, duplicate_email_rejected dbSeed "Bob2" "b@x.com" none (by decide)⟩

/-- C8: `CreateCustomer` is total and returns exactly one of a
customer-populated success envelope or a null-customer failure envelope. -/
theorem create_customer_total_envelope (db : DB) (n e : String) (p : Option String) :
    ((createCustomer db n e p).1.success = true ∧
      ∃ c, (createCustomer db n e p).1.customer = some c) ∨
    ((createCustomer db n e p).1.success = false ∧
      (createCustomer db n e p).1.customer = none) := by
  unfold createCustomer
  by_cases h1 : emailExists db e
  · right; simp [h1]
  · by_cases h2 : (phoneTruthy p && !phoneRegexMatch (p.getD "")) = true
    · right; simp [h1, h2]
    · left; simp [h1, h2]

/-- C6: `CreateProduct` rejects a non-positive price (zero included) with
"Price must be positive.", then a negative stock with "Stock cannot be
negative.", and otherwise persists and returns the product with a success
envelope. -/
theorem create_product_validation :
    (∀ (db : DB) (n : String) (price : ℚ) (stock : Int), price ≤ 0 →
      createProduct db n price stock =
        ({ product := none, success := false, message := "Price must be positive." }, db)) ∧
    (∀ (db : DB) (n : String) (price : ℚ) (stock : Int), 0 < price → stock < 0 →
      createProduct db n price stock =
        ({ product := none, success := false, message := "Stock cannot be negative." }, db)) ∧
    (∀ (db : DB) (n : String) (price : ℚ) (stock : Int), 0 < price → 0 ≤ stock →
      ∃ p : Product,
        (createProduct db n price stock).1 =
          { product := some p, success := true, message := "Product created successfully." } ∧
        (createProduct db n price stock).2.products = db.products ++ [p]) := by
  refine ⟨?_, ?_, ?_⟩
  · intro db n price stock h
    simp [createProduct, h]
  · intro db n price stock hp hs
    simp [createProduct, not_le.mpr hp, hs]
  · intro db n price stock hp hs
    refine ⟨⟨db.nextProductId, n, price, stock⟩, ?_, ?_⟩ <;>
      simp [createProduct, not_le.mpr hp, not_lt.mpr hs]

theorem create_product_validation_witness :
    (createProduct dbEmpty "P" 0 5 =
      ({ product := none, success := false, message := "Price must be positive." }, dbEmpty)) ∧
    (createProduct dbEmpty "P" (-5) 5 =
      ({ product := none, success := false, message := "Price must be positive." }, dbEmpty)) ∧
    (createProduct dbEmpty "P" 2 (-1) =
      ({ product := none, success := false, message := "Stock cannot be negative." }, dbEmpty)) ∧
    (∃ p : Product,
      (createProduct dbEmpty "P" 2 0).1 =
        { product := some p, success := true, message := "Product created successfully." } ∧
      (createProduct dbEmpty "P" 2 0).2.products = dbEmpty.products ++ [p]) :=
  ⟨create_product_validation.1 dbEmpty "P" 0 5 (by norm_num),
   create_product_validation.1 dbEmpty "P" (-5) 5 (by norm_num),
   create_product_validation.2.1 dbEmpty "P" 2 (-1) (by norm_num) (by norm_num),
   create_product_validation.2.2 dbEmpty "P" 2 0 (by norm_num) (by norm_num)⟩

/-- C7: the bulk mutation's atomic scope wraps the whole batch: on a normal
run every successfully-validated row is committed together with the others
(the final customer table is the initial one plus exactly the created list,
whatever per-row validation errors were recorded), and on an unrecoverable
storage-layer failure the state rolls back unchanged. -/
theorem bulk_atomic_commit_or_rollback (db : DB) (rows : List CustomerInput)
    (saveExc : Nat → Option String) (storageOk : Bool) :
    (storageOk = false →
      bulkCreateCustomersAtomic db rows saveExc storageOk = (none, db)) ∧
    (storageOk = true →
      ∃ r : BulkResult,
        (bulkCreateCustomersAtomic db rows saveExc storageOk).1 = some r ∧
        (bulkCreateCustomersAtomic db rows saveExc storageOk).2.customers =
          db.customers ++ r.createdCustomers ∧
        r.createdCustomers.length + r.errors.length = rows.length) := by
  constructor
  · intro h; subst h; simp [bulkCreateCustomersAtomic]
  · intro h; subst h
    refine ⟨(bulkCreateCustomers db rows saveExc).1, ?_, ?_, ?_⟩
    · simp [bulkCreateCustomersAtomic]
    · simpa [bulkCreateCustomersAtomic, bulkCreateCustomers] using
        bulkGo_customers saveExc rows 0 db
    · simpa [bulkCreateCustomers] using bulkGo_length saveExc rows 0 db

theorem bulk_atomic_commit_or_rollback_witness :
    (bulkCreateCustomersAtomic dbSeed [⟨"A", "a@x.com", none⟩] (fun _ => none) false =
      (none, dbSeed)) ∧
    (∃ r : BulkResult,
      (bulkCreateCustomersAtomic dbSeed [⟨"A", "a@x.com", none⟩] (fun _ => none) true).1 =
        some r ∧
      (bulkCreateCustomersAtomic dbSeed [⟨"A", "a@x.com", none⟩] (fun _ => none) true).2.customers =
        dbSeed.customers ++ r.createdCustomers ∧
      r.createdCustomers.length + r.errors.length = 1) :=
  ⟨(bulk_atomic_commit_or_rollback dbSeed [⟨"A", "a@x.com", none⟩] (fun _ => none) false).1 rfl,
   (bulk_atomic_commit_or_rollback dbSeed [⟨"A", "a@x.com", none⟩] (fun _ => none) true).2 rfl⟩

/-- C9: each bulk input row contributes exactly one outcome, either one
created customer or one error string: the two result lists are the ordered
left and right projections of the per-row outcome list, whose length is the
input's length, so the list lengths add up to the input length. -/
theorem bulk_rows_partition_outcomes (db : DB) (rows : List CustomerInput)
    (saveExc : Nat → Option String) :
    (bulkCreateCustomers db rows saveExc).1.createdCustomers =
      (bulkOutcomes saveExc 0 db rows).filterMap Sum.getLeft? ∧
    (bulkCreateCustomers db rows saveExc).1.errors =
      (bulkOutcomes saveExc 0 db rows).filterMap Sum.getRight? ∧
    (bulkOutcomes saveExc 0 db rows).length = rows.length ∧
    (bulkCreateCustomers db rows saveExc).1.createdCustomers.length +
      (bulkCreateCustomers db rows saveExc).1.errors.length = rows.length := by
  obtain ⟨e1, e2, e3⟩ := bulkGo_eq_outcomes saveExc rows 0 db
  exact ⟨e1, e2, e3, by simpa [bulkCreateCustomers] using bulkGo_length saveExc rows 0 db⟩

/-- C10: a phone argument equal to the empty string skips phone-format
validation: with a fresh email both `CreateCustomer` and a bulk row succeed
and persist the empty string as the customer's phone. -/
theorem empty_phone_treated_as_absent :
    (∀ (db : DB) (n e : String), emailExists db e = false →
      (createCustomer db n e (some "")).1 =
        { customer := some ⟨db.nextCustomerId, n, e, some ""⟩, success := true,
          message := "Customer created successfully." } ∧
      (createCustomer db n e (some "")).2.customers =
        db.customers ++ [⟨db.nextCustomerId, n, e, some ""⟩]) ∧
    (∀ (db : DB) (nm em : String) (saveExc : Nat → Option String),
      emailExists db em = false → saveExc 0 = none →
      (bulkCreateCustomers db [⟨nm, em, some ""⟩] saveExc).1 =
        { createdCustomers := [⟨db.nextCustomerId, nm, em, some ""⟩], errors := [] } ∧
      (bulkCreateCustomers db [⟨nm, em, some ""⟩] saveExc).2.customers =
        db.customers ++ [⟨db.nextCustomerId, nm, em, some ""⟩]) := by
  constructor
  · intro db n e h
    constructor <;> simp [createCustomer, h, phoneTruthy]
  · intro db nm em saveExc h hs
    constructor <;> simp [bulkCreateCustomers, bulkGo, h, hs, phoneTruthy]

theorem empty_phone_treated_as_absent_witness :
    ((createCustomer dbSeed "A" "a@x.com" (some "")).1 =
      { customer := some ⟨1, "A", "a@x.com", some ""⟩, success := true,
        message := "Customer created successfully." } ∧
      (createCustomer dbSeed "A" "a@x.com" (some "")).2.customers =
        dbSeed.customers ++ [⟨1, "A", "a@x.com", some ""⟩]) ∧
    ((bulkCreateCustomers dbSeed [⟨"A", "a@x.com", some ""⟩] (fun _ => none)).1 =
      { createdCustomers := [⟨1, "A", "a@x.com", some ""⟩], errors := [] } ∧
      (bulkCreateCustomers dbSeed [⟨"A", "a@x.com", some ""⟩] (fun _ => none)).2.customers =
        dbSeed.customers ++ [⟨1, "A", "a@x.com", some ""⟩]) :=
  ⟨empty_phone_treated_as_absent.1 dbSeed "A" "a@x.com" (by decide),
   empty_phone_treated_as_absent.2 dbSeed "A" "a@x.com" (fun _ => none) (by decide) rfl⟩

/-- C2: `CreateOrder` checks in fixed order and short-circuits, persisting
nothing on failure: an unresolvable customer id fails with "Invalid customer
ID." whatever the product ids are; then an empty product list fails with "At
least one product must be selected."; then the first unresolvable product id
fails with "Invalid product ID: " and that id, with the state unchanged. -/
theorem create_order_check_order :
    (∀ (db : DB) (cid : Nat) (pids : List Nat) (od : Option Nat) (now : Nat),
      getCustomer db cid = none →
      createOrder db cid pids od now =
        ({ order := none, success := false, message := "Invalid customer ID." }, db)) ∧
    (∀ (db : DB) (cid : Nat) (c : Customer) (od : Option Nat) (now : Nat),
      getCustomer db cid = some c →
      createOrder db cid [] od now =
        ({ order := none, success := false,
           message := "At least one product must be selected." }, db)) ∧
    (∀ (db : DB) (cid : Nat) (c : Customer) (od : Option Nat) (now : Nat)
        (l1 : List Nat) (bad : Nat) (l2 : List Nat),
      getCustomer db cid = some c →
      (∀ p ∈ l1, (getProduct db p).isSome) →
      getProduct db bad = none →
      createOrder db cid (l1 ++ bad :: l2) od now =
        ({ order := none, success := false,
           message := "Invalid product ID: " ++ toString bad }, db)) := by
  refine ⟨?_, ?_, ?_⟩
  · intro db cid pids od now h
    simp [createOrder, h]
  · intro db cid c od now h
    simp [createOrder, h]
  · intro db cid c od now l1 bad l2 hc hl1 hbad
    have hres := resolveProducts_first_error db bad l2 hbad l1 hl1
    have hne : (l1 ++ bad :: l2).isEmpty = false := by
      cases l1 <;> simp
    simp [createOrder, hc, hne, hres]

theorem create_order_check_order_witness :
    (createOrder dbSeed 99 [0, 1] none 0 =
      ({ order := none, success := false, message := "Invalid customer ID." }, dbSeed)) ∧
    (createOrder dbSeed 0 [] none 0 =
      ({ order := none, success := false,
         message := "At least one product must be selected." }, dbSeed)) ∧
    (createOrder dbSeed 0 [0, 42, 1] none 0 =
      ({ order := none, success := false,
         message := "Invalid product ID: " ++ toString 42 }, dbSeed)) :=
  ⟨create_order_check_order.1 dbSeed 99 [0, 1] none 0 (by decide),
   create_order_check_order.2.1 dbSeed 0 ⟨0, "Bob", "b@x.com", none⟩ none 0 (by decide),
   create_order_check_order.2.2 dbSeed 0 ⟨0, "Bob", "b@x.com", none⟩ none 0
     [0] 42 [1] (by decide) (by decide) (by decide)⟩

/-- C3: a successful `CreateOrder` persists an order whose `totalAmount` is
exactly the sum of the resolved products' prices at call time, and the stored
snapshot is frozen: later mutations leave the stored orders untouched. -/
theorem create_order_total_is_price_sum (db : DB) (cid : Nat) (c : Customer)
    (pids : List Nat) (prods : List Product) (od : Option Nat) (now : Nat)
    (hc : getCustomer db cid = some c) (hne : pids ≠ [])
    (hres : resolveProducts db pids = Except.ok prods) :
    ∃ o : Order,
      (createOrder db cid pids od now).1.order = some o ∧
      o.totalAmount = (prods.map Product.price).sum ∧
      (createOrder db cid pids od now).2.orders = db.orders ++ [o] ∧
      (∀ (n : String) (price : ℚ) (stock : Int),
        ((createProduct (createOrder db cid pids od now).2 n price stock).2).orders =
          (createOrder db cid pids od now).2.orders) ∧
      (∀ (n e : String) (p : Option String),
        ((createCustomer (createOrder db cid pids od now).2 n e p).2).orders =
          (createOrder db cid pids od now).2.orders) := by
  have hne' : pids.isEmpty = false := by
    cases pids
    · exact absurd rfl hne
    · simp
  refine ⟨⟨db.nextOrderId, c.id, od.getD now, totalOf prods, prods.map Product.id⟩,
    ?_, ?_, ?_, ?_, ?_⟩
  · simp [createOrder, hc, hne', hres]
  · simp [totalOf]
  · simp [createOrder, hc, hne', hres]
  · intro n price stock
    unfold createProduct
    by_cases h1 : price ≤ 0
    · simp [h1]
    · by_cases h2 : stock < 0 <;> simp [h1, h2]
  · intro n e p
    unfold createCustomer
    by_cases h1 : emailExists (createOrder db cid pids od now).2 e
    · simp [h1]
    · by_cases h2 : (phoneTruthy p && !phoneRegexMatch (p.getD "")) = true <;>
        simp [h1, h2]

theorem create_order_total_is_price_sum_witness :
    resolveProducts dbSeed [0, 1] = Except.ok [⟨0, "Widget", 5, 3⟩, ⟨1, "Gadget", 3, 7⟩] ∧
    ∃ o : Order,
      (createOrder dbSeed 0 [0, 1] none 0).1.order = some o ∧
      o.totalAmount = ([⟨0, "Widget", 5, 3⟩, ⟨1, "Gadget", (3 : ℚ), 7⟩].map Product.price).sum ∧
      (createOrder dbSeed 0 [0, 1] none 0).2.orders = dbSeed.orders ++ [o] ∧
      (∀ (n : String) (price : ℚ) (stock : Int),
        ((createProduct (createOrder dbSeed 0 [0, 1] none 0).2 n price stock).2).orders =
          (createOrder dbSeed 0 [0, 1] none 0).2.orders) ∧
      (∀ (n e : String) (p : Option String),
        ((createCustomer (createOrder dbSeed 0 [0, 1] none 0).2 n e p).2).orders =
          (createOrder dbSeed 0 [0, 1] none 0).2.orders) :=
  ⟨rfl,
   create_order_total_is_price_sum dbSeed 0 ⟨0, "Bob", "b@x.com", none⟩ [0, 1]
     [⟨0, "Widget", 5, 3⟩, ⟨1, "Gadget", 3, 7⟩] none 0 (by decide) (by decide) rfl⟩

/-- C1: a bulk row that fails validation or whose save raises does not abort
its sibling rows: generally, every passing row is persisted (the final table
is the initial one plus exactly the created list), the created and error
counts add up to the batch size, and every error string carries its row's
1-based position; in particular, a 3-row batch whose second row duplicates a
stored email yields 2 created customers (rows 1 and 3, both persisted) and
the single error "Row 2: Email '...' already exists.". -/
theorem bulk_partial_failure_semantics :
    (∀ (saveExc : Nat → Option String) (db : DB) (rows : List CustomerInput),
      (bulkCreateCustomers db rows saveExc).2.customers =
        db.customers ++ (bulkCreateCustomers db rows saveExc).1.createdCustomers ∧
      (bulkCreateCustomers db rows saveExc).1.createdCustomers.length +
        (bulkCreateCustomers db rows saveExc).1.errors.length = rows.length ∧
      ∀ e ∈ (bulkCreateCustomers db rows saveExc).1.errors,
        ∃ n msg, n < rows.length ∧ e = rowError n msg) ∧
    (∀ (db : DB) (r1 r2 r3 : CustomerInput),
      emailExists db r1.email = false →
      (phoneTruthy r1.phone && !phoneRegexMatch (r1.phone.getD "")) = false →
      emailExists db r2.email = true →
      emailExists db r3.email = false →
      r3.email ≠ r1.email →
      (phoneTruthy r3.phone && !phoneRegexMatch (r3.phone.getD "")) = false →
      (bulkCreateCustomers db [r1, r2, r3] (fun _ => none)).1 =
        { createdCustomers :=
            [⟨db.nextCustomerId, r1.name, r1.email, r1.phone⟩,
             ⟨db.nextCustomerId + 1, r3.name, r3.email, r3.phone⟩],
          errors := [rowEmailError 1 r2.email] } ∧
      (bulkCreateCustomers db [r1, r2, r3] (fun _ => none)).2.customers =
        db.customers ++
          [⟨db.nextCustomerId, r1.name, r1.email, r1.phone⟩,
           ⟨db.nextCustomerId + 1, r3.name, r3.email, r3.phone⟩]) := by
  constructor
  · intro saveExc db rows
    refine ⟨?_, ?_, ?_⟩
    · simpa [bulkCreateCustomers] using bulkGo_customers saveExc rows 0 db
    · simpa [bulkCreateCustomers] using bulkGo_length saveExc rows 0 db
    · intro e he
      obtain ⟨n, msg, _, hn2, hne⟩ :=
        bulkGo_errors_indexed saveExc rows 0 db e (by simpa [bulkCreateCustomers] using he)
      exact ⟨n, msg, by omega, hne⟩
  · intro db r1 r2 r3 h1 h1p h2 h3 h31 h3p
    have hb1 : emailExists
        ⟨db.customers ++ [⟨db.nextCustomerId, r1.name, r1.email, r1.phone⟩],
         db.products, db.orders, db.nextCustomerId + 1, db.nextProductId,
         db.nextOrderId⟩ r2.email = true := by
      simp only [emailExists, List.any_append] at h2 ⊢
      simp [h2]
    have hb3 : emailExists
        ⟨db.customers ++ [⟨db.nextCustomerId, r1.name, r1.email, r1.phone⟩],
         db.products, db.orders, db.nextCustomerId + 1, db.nextProductId,
         db.nextOrderId⟩ r3.email = false := by
      have h31x : (r1.email == r3.email) = false := beq_eq_false_iff_ne.mpr (Ne.symm h31)
      simp only [emailExists, List.any_append] at h3 ⊢
      simp [h3, h31x]
    constructor <;>
      simp [bulkCreateCustomers, bulkGo, h1, h1p, hb1, hb3, h3p]

theorem bulk_partial_failure_semantics_witness :
    (bulkCreateCustomers dbSeed
        [⟨"A", "a@x.com", none⟩, ⟨"B", "b@x.com", none⟩, ⟨"C", "c@x.com", none⟩]
        (fun _ => none)).1 =
      { createdCustomers :=
          [⟨1, "A", "a@x.com", none⟩, ⟨2, "C", "c@x.com", none⟩],
        errors := [rowEmailError 1 "b@x.com"] } ∧
    (bulkCreateCustomers dbSeed
        [⟨"A", "a@x.com", none⟩, ⟨"B", "b@x.com", none⟩, ⟨"C", "c@x.com", none⟩]
        (fun _ => none)).2.customers =
      dbSeed.customers ++ [⟨1, "A", "a@x.com", none⟩, ⟨2, "C", "c@x.com", none⟩] :=
  bulk_partial_failure_semantics.2 dbSeed
    ⟨"A", "a@x.com", none⟩ ⟨"B", "b@x.com", none⟩ ⟨"C", "c@x.com", none⟩
    (by decide) (by decide) (by decide) (by decide) (by decide) (by decide)

/-- C4: the phone check of the mutations accepts exactly the strings matching
one of the two spec patterns (a plus sign and 10 to 15 digits, or 3-3-4 digit
groups joined by hyphens): a non-empty phone is accepted by `CreateCustomer`
iff it matches, a non-matching one fails with "Invalid phone format.", and an
absent phone is valid. -/
theorem phone_validation_exact :
    (∀ s : String, s ≠ "" →
      (phoneRegexMatch s = true ↔ (specPlusFormat s ∨ specDashFormat s))) ∧
    (∀ (db : DB) (n em s : String), emailExists db em = false → s ≠ "" →
      ((createCustomer db n em (some s)).1.success = true ↔ phoneRegexMatch s = true) ∧
      (phoneRegexMatch s = false →
        (createCustomer db n em (some s)).1 =
          { customer := none, success := false, message := "Invalid phone format." })) ∧
    (∀ (db : DB) (n em : String), emailExists db em = false →
      (createCustomer db n em none).1.success = true) := by
  refine ⟨?_, ?_, ?_⟩
  · intro s _
    rw [phoneRegexMatch, Bool.or_eq_true, isPlusFormat_iff, isDashFormat_iff]
  · intro db n em s hem hs
    have ht : phoneTruthy (some s) = true := by
      simp [phoneTruthy, hs]
    constructor
    · by_cases hm : phoneRegexMatch s = true <;>
        simp [createCustomer, hem, ht, hm]
    · intro hm
      simp [createCustomer, hem, ht, hm]
  · intro db n em hem
    simp [createCustomer, hem, phoneTruthy]

theorem phone_validation_exact_witness :
    (phoneRegexMatch "+1234567890" = true ↔
      (specPlusFormat "+1234567890" ∨ specDashFormat "+1234567890")) ∧
    ((createCustomer dbSeed "A" "a@x.com" (some "123-456-7890")).1.success = true ↔
      phoneRegexMatch "123-456-7890" = true) ∧
    ((createCustomer dbSeed "A" "a@x.com" (some "555")).1 =
      { customer := none, success := false, message := "Invalid phone format." }) ∧
    (createCustomer dbSeed "A" "a@x.com" none).1.success = true :=
  ⟨phone_validation_exact.1 "+1234567890" (by decide),
   (phone_validation_exact.2.1 dbSeed "A" "a@x.com" "123-456-7890" (by decide) (by decide)).1,
   (phone_validation_exact.2.1 dbSeed "A" "a@x.com" "555" (by decide) (by decide)).2 (by decide),
   phone_validation_exact.2.2 dbSeed "A" "a@x.com" (by decide)⟩

end Crm
